import Mathlib

/-!
Verification of the Sunroom2 automation rule engine
(src/Sunroom2/src/automation_dsl/ and src/Sunroom2/src/rule_core.cpp).

Modelling conventions:
* C/C++ `float` values are modelled as exact rationals (`ℚ`); the claims under
  study operate on small decimal constants and comparisons, where the rational
  model coincides with the intended arithmetic.
* `static_cast<int>(float)` truncates toward zero; it is modelled by `truncQ`
  (truncated division of numerator by denominator).
* C `%` on `int` is truncated remainder, modelled by `Int.tmod`.
* `std::strtof` / `std::strtol` are modelled by `strtofModel` / `strtolModel`
  on the decimal grammar (optional leading spaces, optional sign, digits with
  optional fraction and optional exponent); the hexadecimal / infinity / NaN
  forms accepted by `strtof` are outside the DSL's value space and are not
  modelled.  The models return the parsed value together with the unconsumed
  suffix (the `endPtr` of the C API), or `none` when no conversion is
  performed.
-/

/-- Error taxonomy of the automation DSL
(src/Sunroom2/src/automation_dsl/unified_value.h, `enum ErrorCode`), extended
with `FUNCTION_NOT_FOUND` for a registry miss, which the function-registry
tests (tests_native/function_registry_tests.cpp) and the spec's §7 taxonomy
require but whose declaring header (new_core.h) is absent from the tree. -/
inductive ErrorCode where
  | NO_ERROR
  | PARSE_ERROR
  | TYPE_CONVERSION_ERROR
  | UNREC_TYPE_ERROR
  | UNREC_FUNC_ERROR
  | UNREC_STR_ERROR
  | IF_CONDITION_ERROR
  | BOOL_ACTUATOR_ERROR
  | AND_OR_ERROR
  | NOT_ERROR
  | COMPARISON_TYPE_ERROR
  | TIME_ERROR
  | UNREC_ACTUATOR_ERROR
  | SENSOR_READ_ERROR
  | ACTUATOR_SET_ERROR
  | FUNCTION_NOT_FOUND
  deriving DecidableEq, Repr

/-- Truncation of a rational toward zero, the behaviour of C++
`static_cast<int>` on a float value. -/
def truncQ (q : ℚ) : Int := q.num.tdiv (q.den : Int)

/-- One decimal digit as a natural number. -/
def digitVal (c : Char) : Nat := c.toNat - ('0').toNat

/-- Whether a character is an ASCII decimal digit, the `c < '0' || c > '9'`
tests of the source. -/
def isDigitChar (c : Char) : Bool := ('0' ≤ c) && (c ≤ '9')

/-- Fold a digit list into the natural number it denotes. -/
def digitsToNat (ds : List Char) : Nat :=
  ds.foldl (fun acc c => 10 * acc + digitVal c) 0

/-- Split a character list into its maximal leading run of decimal digits and
the rest (the digit-scanning loops of `strtof`/`strtol`). -/
def takeDigits (cs : List Char) : List Char × List Char :=
  (cs.takeWhile isDigitChar, cs.dropWhile isDigitChar)

/-- Consume an optional sign character; returns whether the value is negated
together with the rest of the input. -/
def parseSign : List Char → Bool × List Char
  | '-' :: rest => (true, rest)
  | '+' :: rest => (false, rest)
  | cs => (false, cs)

/-- Whitespace characters skipped by `strtof`/`strtol`. -/
def isSpaceChar (c : Char) : Bool :=
  c = ' ' || c = '\t' || c = '\n' || c = '\r'

/-- Model of `std::strtof` on the decimal grammar: skip leading whitespace,
optional sign, integer digits, optional fraction, optional exponent (the
exponent is consumed only when at least one exponent digit follows, as in the
C library, which otherwise leaves `endPtr` before the `e`).  Returns the
parsed value and the unconsumed suffix, or `none` when no conversion is
performed (`endPtr == str`). -/
def strtofModel (cs : List Char) : Option (ℚ × List Char) :=
  let cs1 := cs.dropWhile isSpaceChar
  let sn := parseSign cs1
  let ipr := takeDigits sn.2
  let fpr : Option (List Char) × List Char :=
    match ipr.2 with
    | '.' :: rest =>
      let d := takeDigits rest
      (some d.1, d.2)
    | other => (none, other)
  if ipr.1 = [] ∧ (fpr.1 = none ∨ fpr.1 = some []) then
    none
  else
    let fracDigits := fpr.1.getD []
    -- the mantissa int.frac as the integer int*10^k + frac over the scale 10^k
    let mantNum : Int := (digitsToNat ipr.1 * 10 ^ fracDigits.length + digitsToNat fracDigits : Nat)
    let mantScale : Nat := 10 ^ fracDigits.length
    let ex : Option (Bool × List Char) × List Char :=
      match fpr.2 with
      | c :: rest =>
        if c = 'e' ∨ c = 'E' then
          let esn := parseSign rest
          let edr := takeDigits esn.2
          if edr.1 = [] then (none, fpr.2) else (some (esn.1, edr.1), edr.2)
        else (none, fpr.2)
      | [] => (none, fpr.2)
    let scaled : ℚ :=
      match ex.1 with
      | none => Rat.divInt mantNum (mantScale : Int)
      | some (eneg, eds) =>
        if eneg then Rat.divInt mantNum ((mantScale * 10 ^ digitsToNat eds : Nat) : Int)
        else Rat.divInt (mantNum * ((10 ^ digitsToNat eds : Nat) : Int)) (mantScale : Int)
    some ((if sn.1 then -scaled else scaled), ex.2)

/-- Model of `std::strtol` with base 10: skip leading whitespace, optional
sign, at least one digit; no conversion otherwise.  The value is returned as
an unbounded integer (the `long` overflow clamp only matters beyond the
`INT_MAX` bound checked separately by the caller). -/
def strtolModel (cs : List Char) : Option (Int × List Char) :=
  let cs1 := cs.dropWhile isSpaceChar
  let sn := parseSign cs1
  let dr := takeDigits sn.2
  if dr.1 = [] then none
  else
    let n : Int := (digitsToNat dr.1 : Int)
    some ((if sn.1 then -n else n), dr.2)

/-- Strict string-to-float parsing
(unified_value.h, `UnifiedValue::parseStringAsFloat`): the entire string must
be consumed by the `strtof` parse, otherwise the result is `0`. -/
def parseStringAsFloat (s : String) : ℚ :=
  match strtofModel s.data with
  | none => 0
  | some (v, rest) => if rest = [] then v else 0

/-- Check that a string is a fully valid float parse
(unified_value.h, `UnifiedValue::isValidZeroFloat`). -/
def isValidZeroFloat (s : String) : Bool :=
  match strtofModel s.data with
  | none => false
  | some (_, rest) => rest = []

/-- Two-stage string-to-int parsing
(unified_value.h, `UnifiedValue::parseStringAsInt`): first a pure base-10
integer parse that must consume the whole string and fit in `int`; on failure
a float parse followed by truncation toward zero; `0` when both fail. -/
def parseStringAsInt (s : String) : Int :=
  match strtolModel s.data with
  | some (n, rest) =>
    if rest = [] ∧ n ≤ 2147483647 ∧ -2147483648 ≤ n then n
    else
      let f := parseStringAsFloat s
      if f ≠ 0 ∨ isValidZeroFloat s then truncQ f else 0
  | none =>
    let f := parseStringAsFloat s
    if f ≠ 0 ∨ isValidZeroFloat s then truncQ f else 0

/-- The unified tagged value of the automation DSL
(unified_value.h, `struct UnifiedValue`).  The actuator variant's setter
closure is represented by the relay index it is bound to: every actuator the
bridge resolves is `std::bind(setRelay, index, _1)`
(automation_dsl/bridge.cpp, `getActuatorSetter`). -/
inductive UnifiedValue where
  | float (q : ℚ)
  | int (n : Int)
  | str (s : String)
  | void
  | actuator (idx : Nat)
  | error (e : ErrorCode)
  deriving DecidableEq, Repr

/-- Whether the value carries the `ERROR_TYPE` tag. -/
def UnifiedValue.isError : UnifiedValue → Bool
  | .error _ => true
  | _ => false

/-- Whether the value is numeric-kind (`FLOAT_TYPE` or `INT_TYPE`), the test
`type != FLOAT_TYPE && type != INT_TYPE` used throughout
registry_functions.cpp. -/
def UnifiedValue.isNumeric : UnifiedValue → Bool
  | .float _ => true
  | .int _ => true
  | _ => false

/-- Conversion to float (unified_value.h, `UnifiedValue::asFloat`): floats
as-is, ints cast, strings strictly parsed, everything else `0`. -/
def UnifiedValue.asFloat : UnifiedValue → ℚ
  | .float q => q
  | .int n => (n : ℚ)
  | .str s => parseStringAsFloat s
  | .void => 0
  | .actuator _ => 0
  | .error _ => 0

/-- Conversion to int (unified_value.h, `UnifiedValue::asInt`): ints as-is,
floats truncated toward zero, strings via the two-stage parse, everything
else `0`. -/
def UnifiedValue.asInt : UnifiedValue → Int
  | .int n => n
  | .float q => truncQ q
  | .str s => parseStringAsInt s
  | .void => 0
  | .actuator _ => 0
  | .error _ => 0

/-- The source's `UnifiedValue::operator==`: errors are never equal to
anything, two strings compare their text, every other pair compares the
`asFloat` coercions. -/
def UnifiedValue.opEq (a b : UnifiedValue) : Bool :=
  if a.isError || b.isError then false
  else
    match a, b with
    | .str s, .str t => s = t
    | x, y => x.asFloat = y.asFloat

/-- The source's `UnifiedValue::operator!=`, defined as the negation of
`operator==`. -/
def UnifiedValue.opNe (a b : UnifiedValue) : Bool := !(a.opEq b)

/-- Time-literal parser (automation_dsl/core.cpp, `parseTimeLiteral`): the
input must be exactly nine characters `@HH:MM:SS`, the six digit positions
must be ASCII digits, and hour/minute/second must lie in their ranges;
returns seconds since midnight on success and the sentinel `-1` otherwise.
The source's `hours < 0` style checks are retained but vacuous, since the
digits produce nonnegative values. -/
def parseTimeLiteral (timeStr : String) : Int :=
  match timeStr.data with
  | [c0, h1, h2, c3, m1, m2, c6, s1, s2] =>
    if c0 ≠ '@' ∨ c3 ≠ ':' ∨ c6 ≠ ':' then -1
    else if ¬ (isDigitChar h1 ∧ isDigitChar h2 ∧ isDigitChar m1 ∧ isDigitChar m2 ∧
               isDigitChar s1 ∧ isDigitChar s2) then -1
    else
      let hours : Nat := 10 * digitVal h1 + digitVal h2
      let minutes : Nat := 10 * digitVal m1 + digitVal m2
      let seconds : Nat := 10 * digitVal s1 + digitVal s2
      if hours > 23 ∨ minutes > 59 ∨ seconds > 59 then -1
      else ((hours * 3600 + minutes * 60 + seconds : Nat) : Int)
  | _ => -1

/-- Whether a string is a time literal (automation_dsl/core.cpp,
`jsonIsTimeLiteral`): nonempty and starting with the character at sign. -/
def jsonIsTimeLiteral (s : String) : Bool :=
  match s.data with
  | [] => false
  | c :: _ => c = '@'

/-- JSON expression tree as seen by the evaluator.  `other` stands for the
JSON types the engine does not support (null, objects); an out-of-range
`JsonArrayConst` access in ArduinoJson yields a null variant, which this
model reproduces by `Expr.other`. -/
inductive Expr where
  | str (s : String)
  | boolLit (b : Bool)
  | intLit (n : Int)
  | floatLit (q : ℚ)
  | arr (elems : List Expr)
  | other

/-- Evaluation environment of the function-registry engine
(automation_dsl/core.h, `struct RuleCoreEnv`):
* `fns` is the platform half of the function registry (the zero-argument
  sensor readers registered by `registerBridgeFunctions`); a handler is
  represented by the value it returns, since every platform handler wraps a
  snapshot read (bridge_functions.cpp).  The core half of the registry
  (`registerCoreFunctions`) is dispatched structurally by `processRuleCore`.
* `tryGetActuator` resolves an actuator name to the relay index its setter is
  bound to (bridge.cpp binds `setRelay(index, _)`).
* `tryReadValue` is the dynamic bare-string value resolution of the
  `UnifiedValue` engine (declared in automation_dsl/core_deprecated.h and
  spec §4.4); it may yield string-valued sensors. -/
structure RuleCoreEnv where
  fns : String → Option UnifiedValue
  tryGetActuator : String → Option Nat
  tryReadValue : String → Option UnifiedValue

/-- Process-wide mutable state touched by evaluation: the `RELAY_VALUES`
array (as a total map from relay index to stored value) together with a log
of every actuator-setter invocation `(index, argument)`, in order.  The log
is observational instrumentation for stating which setter calls happened. -/
structure DslState where
  relays : Nat → Int
  calls : List (Nat × ℚ)

/-- The actuator setter (automation_dsl/bridge.cpp, `setRelay`): writes the
tens (auto-intent) digit of `RELAY_VALUES[index]`, keeping the stored ones
(force) digit: the new stored value is `trunc(value)*10 + old % 10`. -/
def setRelay (index : Nat) (value : ℚ) (st : DslState) : DslState :=
  let currentValue := st.relays index
  let intVal := truncQ value
  let onesDigit := currentValue.tmod 10
  let newValue := intVal * 10 + onesDigit
  { relays := fun j => if j = index then newValue else st.relays j
    calls := st.calls ++ [(index, value)] }

/-- Helper for the binary ordering comparisons
(registry_functions.cpp, `RegistryFunctions::validateBinaryNumeric`), applied
after both operands have been evaluated: propagate errors (first operand
first), require both operands numeric-kind on pain of
`COMPARISON_TYPE_ERROR`, and return `Float(1|0)` from the comparison of the
`asFloat` coercions. -/
def validateBinaryNumeric (a b : UnifiedValue) (st : DslState)
    (comparison : ℚ → ℚ → Bool) : UnifiedValue × DslState :=
  if a.isError then (a, st)
  else if b.isError then (b, st)
  else if ¬ a.isNumeric ∨ ¬ b.isNumeric then (.error .COMPARISON_TYPE_ERROR, st)
  else (.float (if comparison a.asFloat b.asFloat then 1 else 0), st)

/-- The recursive rule evaluator of the function-registry engine,
`processRuleCore` of automation_dsl/core.h.

The literal section and the function-call framing follow
automation_dsl/core.cpp lines 184-249 (string literals: time literal, then
actuator resolution, then dynamic value resolution, then
`UNREC_STR_ERROR`; booleans as `Float(1|0)`; unsupported JSON types as
`UNREC_TYPE_ERROR`; a missing or non-string array head as
`UNREC_FUNC_ERROR`).  The core operator bodies are those of
registry_functions.cpp (`functionGT/LT/GTE/LTE/EQ/NE/AND/OR/NOT/IF/SET/NOP`),
each first checking its arity, dispatched here structurally by name exactly
as `registerCoreFunctions` keys them.  A name outside the core set is looked
up among the platform functions; the zero-argument check is
`validateZeroArgSensor` of bridge_functions.cpp, and a registry miss is
`FUNCTION_NOT_FOUND`.

Modelled from the spec: the translation unit tying the registry dispatch
together (new_core.cpp) is absent from the tree — only its interface
(core.h), the handler bodies (registry_functions.cpp), their tests, and the
deprecated variants survive — so the glue (literal handling order, registry
lookup, argument-list conventions) follows spec §4.4 and the surviving
declarations; numeric literals keep their source kind (`Int` vs `Float`) and
time literals evaluate to `Int` seconds.

State threads left-to-right through operand evaluation, exactly as the C++
side effects occur; where the source evaluates both operands before checking
errors (SET, ordering comparisons, EQ/NE), the second operand's effects
persist even when the first operand erred. -/
def processRuleCore : Expr → RuleCoreEnv → DslState → UnifiedValue × DslState
  | .str s, env, st =>
    if jsonIsTimeLiteral s then
      let secs := parseTimeLiteral s
      if secs < 0 then (.error .TIME_ERROR, st) else (.int secs, st)
    else
      match env.tryGetActuator s with
      | some idx => (.actuator idx, st)
      | none =>
        match env.tryReadValue s with
        | some v => (v, st)
        | none => (.error .UNREC_STR_ERROR, st)
  | .boolLit b, _, st => (.float (if b then 1 else 0), st)
  | .intLit n, _, st => (.int n, st)
  | .floatLit q, _, st => (.float q, st)
  | .other, _, st => (.error .UNREC_TYPE_ERROR, st)
  | .arr [.str "NOP"], _, st => (.void, st)
  | .arr (.str "NOP" :: _ :: _), _, st => (.void, st)
  | .arr [.str "IF", c, t, e], env, st =>
    match processRuleCore c env st with
    | (vc, st1) =>
      if vc.isError then (vc, st1)
      else if ¬ vc.isNumeric then (.error .IF_CONDITION_ERROR, st1)
      else if vc.asFloat > 0 then processRuleCore t env st1
      else processRuleCore e env st1
  | .arr (.str "IF" :: _), _, st => (.error .IF_CONDITION_ERROR, st)
  | .arr [.str "SET", a, v], env, st =>
    match processRuleCore a env st with
    | (va, st1) =>
      match processRuleCore v env st1 with
      | (vv, st2) =>
        if va.isError then (va, st2)
        else if vv.isError then (vv, st2)
        else
          match va with
          | .actuator idx =>
            if ¬ vv.isNumeric then (.error .BOOL_ACTUATOR_ERROR, st2)
            else (.void, setRelay idx vv.asFloat st2)
          | _ => (.error .BOOL_ACTUATOR_ERROR, st2)
  | .arr (.str "SET" :: _), _, st => (.error .BOOL_ACTUATOR_ERROR, st)
  | .arr [.str "AND", a, b], env, st =>
    match processRuleCore a env st with
    | (va, st1) =>
      if va.isError then (va, st1)
      else if ¬ (va.asFloat > 0) then (.float 0, st1)
      else
        match processRuleCore b env st1 with
        | (vb, st2) =>
          if vb.isError then (vb, st2)
          else if ¬ va.isNumeric ∨ ¬ vb.isNumeric then (.error .AND_OR_ERROR, st2)
          else (.float (if va.asFloat > 0 ∧ vb.asFloat > 0 then 1 else 0), st2)
  | .arr (.str "AND" :: _), _, st => (.error .AND_OR_ERROR, st)
  | .arr [.str "OR", a, b], env, st =>
    match processRuleCore a env st with
    | (va, st1) =>
      if va.isError then (va, st1)
      else if va.asFloat > 0 then (.float 1, st1)
      else
        match processRuleCore b env st1 with
        | (vb, st2) =>
          if vb.isError then (vb, st2)
          else if ¬ va.isNumeric ∨ ¬ vb.isNumeric then (.error .AND_OR_ERROR, st2)
          else (.float (if va.asFloat > 0 ∨ vb.asFloat > 0 then 1 else 0), st2)
  | .arr (.str "OR" :: _), _, st => (.error .AND_OR_ERROR, st)
  | .arr [.str "NOT", a], env, st =>
    match processRuleCore a env st with
    | (va, st1) =>
      if va.isError then (va, st1)
      else if ¬ va.isNumeric then (.error .NOT_ERROR, st1)
      else (.float (if ¬ (va.asFloat > 0) then 1 else 0), st1)
  | .arr (.str "NOT" :: _), _, st => (.error .NOT_ERROR, st)
  | .arr [.str "EQ", a, b], env, st =>
    match processRuleCore a env st with
    | (va, st1) =>
      match processRuleCore b env st1 with
      | (vb, st2) =>
        if va.isError then (va, st2)
        else if vb.isError then (vb, st2)
        else (.float (if va.opEq vb then 1 else 0), st2)
  | .arr (.str "EQ" :: _), _, st => (.error .COMPARISON_TYPE_ERROR, st)
  | .arr [.str "NE", a, b], env, st =>
    match processRuleCore a env st with
    | (va, st1) =>
      match processRuleCore b env st1 with
      | (vb, st2) =>
        if va.isError then (va, st2)
        else if vb.isError then (vb, st2)
        else (.float (if va.opNe vb then 1 else 0), st2)
  | .arr (.str "NE" :: _), _, st => (.error .COMPARISON_TYPE_ERROR, st)
  | .arr [.str "GT", a, b], env, st =>
    match processRuleCore a env st with
    | (va, st1) =>
      match processRuleCore b env st1 with
      | (vb, st2) => validateBinaryNumeric va vb st2 (fun x y => x > y)
  | .arr (.str "GT" :: _), _, st => (.error .COMPARISON_TYPE_ERROR, st)
  | .arr [.str "LT", a, b], env, st =>
    match processRuleCore a env st with
    | (va, st1) =>
      match processRuleCore b env st1 with
      | (vb, st2) => validateBinaryNumeric va vb st2 (fun x y => x < y)
  | .arr (.str "LT" :: _), _, st => (.error .COMPARISON_TYPE_ERROR, st)
  | .arr [.str "GTE", a, b], env, st =>
    match processRuleCore a env st with
    | (va, st1) =>
      match processRuleCore b env st1 with
      | (vb, st2) => validateBinaryNumeric va vb st2 (fun x y => x ≥ y)
  | .arr (.str "GTE" :: _), _, st => (.error .COMPARISON_TYPE_ERROR, st)
  | .arr [.str "LTE", a, b], env, st =>
    match processRuleCore a env st with
    | (va, st1) =>
      match processRuleCore b env st1 with
      | (vb, st2) => validateBinaryNumeric va vb st2 (fun x y => x ≤ y)
  | .arr (.str "LTE" :: _), _, st => (.error .COMPARISON_TYPE_ERROR, st)
  | .arr (.str fname :: args), env, st =>
    match env.fns fname with
    | some v => if args.isEmpty then (v, st) else (.error .UNREC_FUNC_ERROR, st)
    | none => (.error .FUNCTION_NOT_FOUND, st)
  | .arr _, _, st => (.error .UNREC_FUNC_ERROR, st)

/-- One iteration of the rule-set driver loop
(automation_dsl/core.cpp, `processRuleSet`, lines 385-445): reset the
same-indexed relay to the do-not-care value `2.0` when the actuator resolves,
skip the rule when JSON parsing failed (`rule = none` models a
`DeserializationError`), evaluate the parsed expression, and on a
numeric-kind result drive the same-indexed relay with it; `Void` and `Error`
results leave the state as evaluation left it.

The surviving driver (paired with the float-only `RuleReturn` core) tests
`result.type == FLOAT_TYPE`; in the `UnifiedValue` engine embedded here the
numeric kinds are `FLOAT_TYPE` and `INT_TYPE`, per spec §4.5 (the registry
driver's translation unit is absent from the tree). -/
def processRule (i : Nat) (rule : Option Expr) (env : RuleCoreEnv) (st : DslState) : DslState :=
  let st1 :=
    match env.tryGetActuator ("relay_" ++ toString i) with
    | some idx => setRelay idx 2 st
    | none => st
  match rule with
  | none => st1
  | some e =>
    let r := processRuleCore e env st1
    if r.1.isNumeric then
      match env.tryGetActuator ("relay_" ++ toString i) with
      | some idx => setRelay idx r.1.asFloat r.2
      | none => r.2
    else r.2

/-- The rule-set driver loop from index `i` upward. -/
def processRuleSetFrom : Nat → List (Option Expr) → RuleCoreEnv → DslState → DslState
  | _, [], _, st => st
  | i, r :: rest, env, st => processRuleSetFrom (i + 1) rest env (processRule i r env st)

/-- The rule-set driver (automation_dsl/core.cpp, `processRuleSet`):
processes every rule in index order starting from relay 0. -/
def processRuleSet (rules : List (Option Expr)) (env : RuleCoreEnv) (st : DslState) : DslState :=
  processRuleSetFrom 0 rules env st

/-- The value computed by evaluation, as a function of the expression and the
environment alone.  This is the value projection of `processRuleCore`: no
branch of the evaluator consults the mutable relay state, so the result value
cannot depend on it (proved as `processRuleCore_fst_eq_evalValue`). -/
def evalValue : Expr → RuleCoreEnv → UnifiedValue
  | .str s, env =>
    if jsonIsTimeLiteral s then
      let secs := parseTimeLiteral s
      if secs < 0 then .error .TIME_ERROR else .int secs
    else
      match env.tryGetActuator s with
      | some idx => .actuator idx
      | none =>
        match env.tryReadValue s with
        | some v => v
        | none => .error .UNREC_STR_ERROR
  | .boolLit b, _ => .float (if b then 1 else 0)
  | .intLit n, _ => .int n
  | .floatLit q, _ => .float q
  | .other, _ => .error .UNREC_TYPE_ERROR
  | .arr [.str "NOP"], _ => .void
  | .arr (.str "NOP" :: _ :: _), _ => .void
  | .arr [.str "IF", c, t, e], env =>
    if (evalValue c env).isError then evalValue c env
    else if ¬ (evalValue c env).isNumeric then .error .IF_CONDITION_ERROR
    else if (evalValue c env).asFloat > 0 then evalValue t env
    else evalValue e env
  | .arr (.str "IF" :: _), _ => .error .IF_CONDITION_ERROR
  | .arr [.str "SET", a, v], env =>
    if (evalValue a env).isError then evalValue a env
    else if (evalValue v env).isError then evalValue v env
    else
      match evalValue a env with
      | .actuator _ => if ¬ (evalValue v env).isNumeric then .error .BOOL_ACTUATOR_ERROR else .void
      | _ => .error .BOOL_ACTUATOR_ERROR
  | .arr (.str "SET" :: _), _ => .error .BOOL_ACTUATOR_ERROR
  | .arr [.str "AND", a, b], env =>
    if (evalValue a env).isError then evalValue a env
    else if ¬ ((evalValue a env).asFloat > 0) then .float 0
    else if (evalValue b env).isError then evalValue b env
    else if ¬ (evalValue a env).isNumeric ∨ ¬ (evalValue b env).isNumeric then .error .AND_OR_ERROR
    else .float (if (evalValue a env).asFloat > 0 ∧ (evalValue b env).asFloat > 0 then 1 else 0)
  | .arr (.str "AND" :: _), _ => .error .AND_OR_ERROR
  | .arr [.str "OR", a, b], env =>
    if (evalValue a env).isError then evalValue a env
    else if (evalValue a env).asFloat > 0 then .float 1
    else if (evalValue b env).isError then evalValue b env
    else if ¬ (evalValue a env).isNumeric ∨ ¬ (evalValue b env).isNumeric then .error .AND_OR_ERROR
    else .float (if (evalValue a env).asFloat > 0 ∨ (evalValue b env).asFloat > 0 then 1 else 0)
  | .arr (.str "OR" :: _), _ => .error .AND_OR_ERROR
  | .arr [.str "NOT", a], env =>
    if (evalValue a env).isError then evalValue a env
    else if ¬ (evalValue a env).isNumeric then .error .NOT_ERROR
    else .float (if ¬ ((evalValue a env).asFloat > 0) then 1 else 0)
  | .arr (.str "NOT" :: _), _ => .error .NOT_ERROR
  | .arr [.str "EQ", a, b], env =>
    if (evalValue a env).isError then evalValue a env
    else if (evalValue b env).isError then evalValue b env
    else .float (if (evalValue a env).opEq (evalValue b env) then 1 else 0)
  | .arr (.str "EQ" :: _), _ => .error .COMPARISON_TYPE_ERROR
  | .arr [.str "NE", a, b], env =>
    if (evalValue a env).isError then evalValue a env
    else if (evalValue b env).isError then evalValue b env
    else .float (if (evalValue a env).opNe (evalValue b env) then 1 else 0)
  | .arr (.str "NE" :: _), _ => .error .COMPARISON_TYPE_ERROR
  | .arr [.str "GT", a, b], env =>
    if (evalValue a env).isError then evalValue a env
    else if (evalValue b env).isError then evalValue b env
    else if ¬ (evalValue a env).isNumeric ∨ ¬ (evalValue b env).isNumeric then
      .error .COMPARISON_TYPE_ERROR
    else .float (if (evalValue a env).asFloat > (evalValue b env).asFloat then 1 else 0)
  | .arr (.str "GT" :: _), _ => .error .COMPARISON_TYPE_ERROR
  | .arr [.str "LT", a, b], env =>
    if (evalValue a env).isError then evalValue a env
    else if (evalValue b env).isError then evalValue b env
    else if ¬ (evalValue a env).isNumeric ∨ ¬ (evalValue b env).isNumeric then
      .error .COMPARISON_TYPE_ERROR
    else .float (if (evalValue a env).asFloat < (evalValue b env).asFloat then 1 else 0)
  | .arr (.str "LT" :: _), _ => .error .COMPARISON_TYPE_ERROR
  | .arr [.str "GTE", a, b], env =>
    if (evalValue a env).isError then evalValue a env
    else if (evalValue b env).isError then evalValue b env
    else if ¬ (evalValue a env).isNumeric ∨ ¬ (evalValue b env).isNumeric then
      .error .COMPARISON_TYPE_ERROR
    else .float (if (evalValue a env).asFloat ≥ (evalValue b env).asFloat then 1 else 0)
  | .arr (.str "GTE" :: _), _ => .error .COMPARISON_TYPE_ERROR
  | .arr [.str "LTE", a, b], env =>
    if (evalValue a env).isError then evalValue a env
    else if (evalValue b env).isError then evalValue b env
    else if ¬ (evalValue a env).isNumeric ∨ ¬ (evalValue b env).isNumeric then
      .error .COMPARISON_TYPE_ERROR
    else .float (if (evalValue a env).asFloat ≤ (evalValue b env).asFloat then 1 else 0)
  | .arr (.str "LTE" :: _), _ => .error .COMPARISON_TYPE_ERROR
  | .arr (.str fname :: args), env =>
    match env.fns fname with
    | some v => if args.isEmpty then v else .error .UNREC_FUNC_ERROR
    | none => .error .FUNCTION_NOT_FOUND
  | .arr _, _ => .error .UNREC_FUNC_ERROR

/-- Specification-side well-formedness of a time literal, written from the
claim wording (spec §4.2): exactly 9 characters of the form at-HH:MM:SS with
the at sign at position 0, colons at positions 3 and 6, all six remaining
positions ASCII digits, hour in 0..23 and minute/second in 0..59.  This is
the comparison target for the refinement statement about
`parseTimeLiteral`. -/
def timeLiteralWFSpec (s : String) : Prop :=
  s.length = 9 ∧
  s.data.getD 0 ' ' = '@' ∧ s.data.getD 3 ' ' = ':' ∧ s.data.getD 6 ' ' = ':' ∧
  isDigitChar (s.data.getD 1 ' ') = true ∧ isDigitChar (s.data.getD 2 ' ') = true ∧
  isDigitChar (s.data.getD 4 ' ') = true ∧ isDigitChar (s.data.getD 5 ' ') = true ∧
  isDigitChar (s.data.getD 7 ' ') = true ∧ isDigitChar (s.data.getD 8 ' ') = true ∧
  10 * digitVal (s.data.getD 1 ' ') + digitVal (s.data.getD 2 ' ') ≤ 23 ∧
  10 * digitVal (s.data.getD 4 ' ') + digitVal (s.data.getD 5 ' ') ≤ 59 ∧
  10 * digitVal (s.data.getD 7 ' ') + digitVal (s.data.getD 8 ' ') ≤ 59

/-- Specification-side value of a well-formed time literal:
`hours*3600 + minutes*60 + seconds` read off the digit positions. -/
def timeLiteralValSpec (s : String) : Int :=
  (((10 * digitVal (s.data.getD 1 ' ') + digitVal (s.data.getD 2 ' ')) * 3600 +
    (10 * digitVal (s.data.getD 4 ' ') + digitVal (s.data.getD 5 ' ')) * 60 +
    (10 * digitVal (s.data.getD 7 ' ') + digitVal (s.data.getD 8 ' ')) : Nat) : Int)

/-- A concrete environment for the worked examples of the spec's §8: a
temperature sensor function reading 27, two relay actuators, and a
string-valued dynamic sensor named online. -/
def exampleEnv : RuleCoreEnv :=
  { fns := fun n => if n = "getTemperature" then some (.float 27) else none
    tryGetActuator := fun n =>
      if n = "relay_0" then some 0 else if n = "relay_1" then some 1 else none
    tryReadValue := fun n => if n = "online" then some (.str "online") else none }

/-- Initial relay state for the worked examples: every relay stored as 22
(`FORCE_X_AUTO_X`, the do-not-care/do-not-care composite), no setter calls
logged yet. -/
def initialState : DslState := { relays := fun _ => 22, calls := [] }

/-- The single-branch IF example of spec §8: IF (GT 1 0) then
SET relay_0 1 else SET relay_0 99. -/
def ifExample : Expr :=
  .arr [.str "IF", .arr [.str "GT", .intLit 1, .intLit 0],
        .arr [.str "SET", .str "relay_0", .intLit 1],
        .arr [.str "SET", .str "relay_0", .intLit 99]]

/-- The short-circuit AND example of spec §8: AND (GT (getTemperature) 1000)
(UNKNOWN_FN). -/
def andExample : Expr :=
  .arr [.str "AND", .arr [.str "GT", .arr [.str "getTemperature"], .intLit 1000],
        .arr [.str "UNKNOWN_FN"]]

/-- A rule that performs an actuator-setter call on relay 0 and then
evaluates to an error: EQ (SET relay_0 0) (UNKNOWN).  `EQ` evaluates both
operands before checking for errors, so the SET side effect lands even
though the whole rule errors. -/
def sabotageRule : Expr :=
  .arr [.str "EQ", .arr [.str "SET", .str "relay_0", .intLit 0], .arr [.str "UNKNOWN"]]

/-- The error-isolation rule set of spec §8: rule 0 is an unknown function,
rule 1 compares the temperature sensor against 25. -/
def isolationRules : List (Option Expr) :=
  [some (.arr [.str "UNKNOWN"]),
   some (.arr [.str "GT", .arr [.str "getTemperature"], .intLit 25])]

/-- Unfolding of the evaluator at an AND node (helper). -/
theorem processRuleCore_AND_eq (a b : Expr) (env : RuleCoreEnv) (st : DslState) :
    processRuleCore (.arr [.str "AND", a, b]) env st =
      (match processRuleCore a env st with
       | (va, st1) =>
         if va.isError then (va, st1)
         else if ¬ (va.asFloat > 0) then (.float 0, st1)
         else
           match processRuleCore b env st1 with
           | (vb, st2) =>
             if vb.isError then (vb, st2)
             else if ¬ va.isNumeric ∨ ¬ vb.isNumeric then (.error .AND_OR_ERROR, st2)
             else (.float (if va.asFloat > 0 ∧ vb.asFloat > 0 then 1 else 0), st2)) := rfl

/-- Unfolding of the evaluator at an OR node (helper). -/
theorem processRuleCore_OR_eq (a b : Expr) (env : RuleCoreEnv) (st : DslState) :
    processRuleCore (.arr [.str "OR", a, b]) env st =
      (match processRuleCore a env st with
       | (va, st1) =>
         if va.isError then (va, st1)
         else if va.asFloat > 0 then (.float 1, st1)
         else
           match processRuleCore b env st1 with
           | (vb, st2) =>
             if vb.isError then (vb, st2)
             else if ¬ va.isNumeric ∨ ¬ vb.isNumeric then (.error .AND_OR_ERROR, st2)
             else (.float (if va.asFloat > 0 ∨ vb.asFloat > 0 then 1 else 0), st2)) := rfl

/-- Unfolding of the evaluator at an IF node (helper). -/
theorem processRuleCore_IF_eq (c t e : Expr) (env : RuleCoreEnv) (st : DslState) :
    processRuleCore (.arr [.str "IF", c, t, e]) env st =
      (match processRuleCore c env st with
       | (vc, st1) =>
         if vc.isError then (vc, st1)
         else if ¬ vc.isNumeric then (.error .IF_CONDITION_ERROR, st1)
         else if vc.asFloat > 0 then processRuleCore t env st1
         else processRuleCore e env st1) := rfl

/-- Unfolding of the evaluator at an EQ node (helper). -/
theorem processRuleCore_EQ_eq (a b : Expr) (env : RuleCoreEnv) (st : DslState) :
    processRuleCore (.arr [.str "EQ", a, b]) env st =
      (match processRuleCore a env st with
       | (va, st1) =>
         match processRuleCore b env st1 with
         | (vb, st2) =>
           if va.isError then (va, st2)
           else if vb.isError then (vb, st2)
           else (.float (if va.opEq vb then 1 else 0), st2)) := rfl

/-- Unfolding of the evaluator at a GT node (helper). -/
theorem processRuleCore_GT_eq (a b : Expr) (env : RuleCoreEnv) (st : DslState) :
    processRuleCore (.arr [.str "GT", a, b]) env st =
      (match processRuleCore a env st with
       | (va, st1) =>
         match processRuleCore b env st1 with
         | (vb, st2) => validateBinaryNumeric va vb st2 (fun x y => x > y)) := rfl

/-- Unfolding of the evaluator at an LT node (helper). -/
theorem processRuleCore_LT_eq (a b : Expr) (env : RuleCoreEnv) (st : DslState) :
    processRuleCore (.arr [.str "LT", a, b]) env st =
      (match processRuleCore a env st with
       | (va, st1) =>
         match processRuleCore b env st1 with
         | (vb, st2) => validateBinaryNumeric va vb st2 (fun x y => x < y)) := rfl

/-- Unfolding of the evaluator at a GTE node (helper). -/
theorem processRuleCore_GTE_eq (a b : Expr) (env : RuleCoreEnv) (st : DslState) :
    processRuleCore (.arr [.str "GTE", a, b]) env st =
      (match processRuleCore a env st with
       | (va, st1) =>
         match processRuleCore b env st1 with
         | (vb, st2) => validateBinaryNumeric va vb st2 (fun x y => x ≥ y)) := rfl

/-- Unfolding of the evaluator at an LTE node (helper). -/
theorem processRuleCore_LTE_eq (a b : Expr) (env : RuleCoreEnv) (st : DslState) :
    processRuleCore (.arr [.str "LTE", a, b]) env st =
      (match processRuleCore a env st with
       | (va, st1) =>
         match processRuleCore b env st1 with
         | (vb, st2) => validateBinaryNumeric va vb st2 (fun x y => x ≤ y)) := rfl

/-- C1: AND evaluates its first operand and propagates its error; when the
first operand's value is not positive it returns Float 0 with the state as
left by the first operand, for every second operand (so the second operand
is never evaluated); dually OR returns Float 1 whenever the first operand's
value is positive; and the spec §8 example AND (GT (getTemperature) 1000)
(UNKNOWN_FN) returns Float 0 rather than an error. -/
theorem C1_and_or_short_circuit :
    (∀ (env : RuleCoreEnv) (st : DslState) (a b : Expr) (va : UnifiedValue) (st1 : DslState),
      processRuleCore a env st = (va, st1) →
      (va.isError = true →
        processRuleCore (.arr [.str "AND", a, b]) env st = (va, st1) ∧
        processRuleCore (.arr [.str "OR", a, b]) env st = (va, st1)) ∧
      (va.isError = false → va.asFloat ≤ 0 →
        processRuleCore (.arr [.str "AND", a, b]) env st = (.float 0, st1)) ∧
      (va.isError = false → 0 < va.asFloat →
        processRuleCore (.arr [.str "OR", a, b]) env st = (.float 1, st1))) ∧
    (processRuleCore andExample exampleEnv initialState).1 = .float 0 ∧
    (processRuleCore andExample exampleEnv initialState).2.calls = [] := by
  constructor
  · intro env st a b va st1 h
    refine ⟨fun hErr => ⟨?_, ?_⟩, fun hOk hLe => ?_, fun hOk hGt => ?_⟩
    · rw [processRuleCore_AND_eq, h]; simp [hErr]
    · rw [processRuleCore_OR_eq, h]; simp [hErr]
    · rw [processRuleCore_AND_eq, h]; simp [hOk]; intro hc; linarith
    · rw [processRuleCore_OR_eq, h]; simp [hOk, hGt]
  · exact ⟨by decide, by decide⟩

/-- C2: IF evaluates its condition, propagating an error condition and
rejecting a non-numeric condition with IF_CONDITION_ERROR; a positive
condition makes the whole IF equal to evaluating only the then-branch from
the post-condition state (for every else-expression, which is therefore
never evaluated), and a non-positive condition dually; in the spec §8
example the else-branch setter never runs: the evaluation performs exactly
one setter invocation, with value 1, leaving relay 0 with auto-intent 1
(stored value 12). -/
theorem C2_if_single_branch :
    (∀ (env : RuleCoreEnv) (st : DslState) (c t e : Expr) (vc : UnifiedValue) (st1 : DslState),
      processRuleCore c env st = (vc, st1) →
      (vc.isError = true →
        processRuleCore (.arr [.str "IF", c, t, e]) env st = (vc, st1)) ∧
      (vc.isError = false → vc.isNumeric = false →
        processRuleCore (.arr [.str "IF", c, t, e]) env st = (.error .IF_CONDITION_ERROR, st1)) ∧
      (vc.isNumeric = true → 0 < vc.asFloat →
        processRuleCore (.arr [.str "IF", c, t, e]) env st = processRuleCore t env st1) ∧
      (vc.isNumeric = true → vc.asFloat ≤ 0 →
        processRuleCore (.arr [.str "IF", c, t, e]) env st = processRuleCore e env st1)) ∧
    (processRuleCore ifExample exampleEnv initialState).1 = .void ∧
    (processRuleCore ifExample exampleEnv initialState).2.calls = [(0, 1)] ∧
    (processRuleCore ifExample exampleEnv initialState).2.relays 0 = 12 := by
  refine ⟨?_, by decide, by decide, by decide⟩
  intro env st c t e vc st1 h
  have hne : vc.isNumeric = true → vc.isError = false := by
    intro hn; cases vc <;> simp_all [UnifiedValue.isNumeric, UnifiedValue.isError]
  refine ⟨fun hErr => ?_, fun hOk hNum => ?_, fun hNum hGt => ?_, fun hNum hLe => ?_⟩
  · rw [processRuleCore_IF_eq, h]; simp [hErr]
  · rw [processRuleCore_IF_eq, h]; simp [hOk, hNum]
  · rw [processRuleCore_IF_eq, h]; simp [hne hNum, hNum, hGt]
  · rw [processRuleCore_IF_eq, h]; simp [hne hNum, hNum]; intro hc; linarith

/-- C6: the ordering comparisons GT, LT, GTE and LTE evaluate both operands
and, when both are error-free but either is non-numeric (for instance a
String), return COMPARISON_TYPE_ERROR; EQ instead accepts two String
operands and returns Float 1 exactly when their text is equal; in the spec
§8 examples, GT online 5 is a comparison type error while EQ online online
is Float 1, with the bare string online resolving to the String value
online. -/
theorem C6_ordering_requires_numeric_eq_accepts_strings :
    (∀ (env : RuleCoreEnv) (st : DslState) (a b : Expr) (va vb : UnifiedValue)
        (st1 st2 : DslState),
      processRuleCore a env st = (va, st1) →
      processRuleCore b env st1 = (vb, st2) →
      (va.isError = false → vb.isError = false →
        (va.isNumeric = false ∨ vb.isNumeric = false) →
        processRuleCore (.arr [.str "GT", a, b]) env st = (.error .COMPARISON_TYPE_ERROR, st2) ∧
        processRuleCore (.arr [.str "LT", a, b]) env st = (.error .COMPARISON_TYPE_ERROR, st2) ∧
        processRuleCore (.arr [.str "GTE", a, b]) env st = (.error .COMPARISON_TYPE_ERROR, st2) ∧
        processRuleCore (.arr [.str "LTE", a, b]) env st = (.error .COMPARISON_TYPE_ERROR, st2)) ∧
      (∀ s t, va = .str s → vb = .str t →
        processRuleCore (.arr [.str "EQ", a, b]) env st =
          (.float (if s = t then 1 else 0), st2))) ∧
    (processRuleCore (.arr [.str "GT", .str "online", .intLit 5]) exampleEnv initialState).1 =
      .error .COMPARISON_TYPE_ERROR ∧
    (processRuleCore (.arr [.str "EQ", .str "online", .str "online"]) exampleEnv
        initialState).1 = .float 1 ∧
    (processRuleCore (.str "online") exampleEnv initialState).1 = .str "online" := by
  refine ⟨?_, by decide, by decide, by decide⟩
  intro env st a b va vb st1 st2 ha hb
  constructor
  · intro hae hbe hnn
    refine ⟨?_, ?_, ?_, ?_⟩ <;>
      (first
        | rw [processRuleCore_GT_eq, ha]
        | rw [processRuleCore_LT_eq, ha]
        | rw [processRuleCore_GTE_eq, ha]
        | rw [processRuleCore_LTE_eq, ha]) <;>
      simp [hb, validateBinaryNumeric, hae, hbe] <;>
      rcases hnn with hn | hn <;> simp [hn]
  · intro s t hs ht
    rw [processRuleCore_EQ_eq, ha]
    simp [hb, hs, ht, UnifiedValue.isError, UnifiedValue.opEq]

/-- Unfolding of the evaluator at a bare string literal (helper). -/
theorem processRuleCore_str_eq (s : String) (env : RuleCoreEnv) (st : DslState) :
    processRuleCore (.str s) env st =
      (if jsonIsTimeLiteral s then
        if parseTimeLiteral s < 0 then (.error .TIME_ERROR, st) else (.int (parseTimeLiteral s), st)
      else
        match env.tryGetActuator s with
        | some idx => (.actuator idx, st)
        | none =>
          match env.tryReadValue s with
          | some v => (v, st)
          | none => (.error .UNREC_STR_ERROR, st)) := rfl

/-- An error-tagged value is never numeric-kind (helper). -/
theorem UnifiedValue.isNumeric_eq_false_of_isError (v : UnifiedValue) (h : v.isError = true) :
    v.isNumeric = false := by
  cases v <;> simp_all [UnifiedValue.isError, UnifiedValue.isNumeric]

/-- C3: the rule-set driver's per-index protocol, for a resolvable actuator
relay_i: the relay is first set to 2 (do-not-care) before the rule is parsed
or evaluated, so a parse failure leaves exactly that reset state; a
numeric-kind evaluation result drives the relay with exactly that value on
top of the post-evaluation state; a Void result triggers no further setter
call; an Error result likewise leaves the state as evaluation left it (the
reset, plus whatever explicit SET calls ran before the failure). -/
theorem C3_rule_driver_relay_protocol :
    ∀ (i idx : Nat) (env : RuleCoreEnv) (st : DslState),
      env.tryGetActuator ("relay_" ++ toString i) = some idx →
      processRule i none env st = setRelay idx 2 st ∧
      ∀ (e : Expr) (v : UnifiedValue) (st2 : DslState),
        processRuleCore e env (setRelay idx 2 st) = (v, st2) →
        (v.isNumeric = true → processRule i (some e) env st = setRelay idx v.asFloat st2) ∧
        (v = .void → processRule i (some e) env st = st2) ∧
        (v.isError = true → processRule i (some e) env st = st2) := by
  intro i idx env st hAct
  constructor
  · simp [processRule, hAct]
  · intro e v st2 hEval
    refine ⟨fun hNum => ?_, fun hVoid => ?_, fun hErr => ?_⟩
    · simp [processRule, hAct, hEval, hNum]
    · subst hVoid; simp [processRule, hAct, hEval, UnifiedValue.isNumeric]
    · simp [processRule, hAct, hEval, UnifiedValue.isNumeric_eq_false_of_isError v hErr]

/-- Witness for C3 at concrete inputs: relay_0 resolves to index 0 in the
example environment; a parse failure leaves the do-not-care reset, and the
Void-returning rule NOP triggers no automatic setter call. -/
theorem C3_witness :
    processRule 0 none exampleEnv initialState = setRelay 0 2 initialState ∧
    processRule 0 (some (.arr [.str "NOP"])) exampleEnv initialState =
      setRelay 0 2 initialState := by
  have h := C3_rule_driver_relay_protocol 0 0 exampleEnv initialState (by decide)
  exact ⟨h.1, (h.2 (.arr [.str "NOP"]) .void (setRelay 0 2 initialState) rfl).2.1 rfl⟩

/-- C5, counterexample to the claim as stated: a rule that fails (evaluates
to an Error) can still affect another relay before failing.  With rule 0 the
literal 1 (driving relay 0 to auto-on, stored 12) and rule 1 the failing
sabotageRule (which SETs relay 0 to auto-off before erroring), the final
value of relay 0 is 2; with rule 1 absent it is 12 — so rule 1's failure did
change how another index's relay ends up, contradicting the claim that
every other index behaves exactly as if the failing rule were absent. -/
theorem C5_counterexample :
    (processRuleCore sabotageRule exampleEnv
        (setRelay 1 2 (processRuleSet [some (.intLit 1)] exampleEnv initialState))).1.isError
      = true ∧
    (processRuleSet [some (.intLit 1), some sabotageRule] exampleEnv initialState).relays 0 = 2 ∧
    (processRuleSet [some (.intLit 1)] exampleEnv initialState).relays 0 = 12 ∧
    (2 : Int) ≠ 12 := by
  exact ⟨by decide, by decide, by decide, by decide⟩

/-- C5 (amended): a rule whose evaluation fails without invoking any
actuator setter (leaving the state untouched), or which fails to parse,
does not affect the processing of any other rule: the whole run equals the
run with that slot replaced by an unparseable rule, so every other index is
parsed, evaluated and relay-driven identically; and in the spec §8 example
— rule 0 an unknown function, rule 1 comparing getTemperature (27) against
25 — relay 1 is still driven to auto-on (stored 12) while relay 0 stays at
the do-not-care reset (22). -/
theorem C5_error_isolation_amended :
    (∀ (pre post : List (Option Expr)) (e : Expr) (env : RuleCoreEnv) (st : DslState),
      (∀ s : DslState, (processRuleCore e env s).1.isError = true ∧
        (processRuleCore e env s).2 = s) →
      processRuleSet (pre ++ some e :: post) env st =
        processRuleSet (pre ++ none :: post) env st) ∧
    (processRuleSet isolationRules exampleEnv initialState).relays 1 = 12 ∧
    (processRuleSet isolationRules exampleEnv initialState).relays 0 = 22 := by
  refine ⟨?_, by decide, by decide⟩
  intro pre post e env st hE
  have hPR : ∀ (i : Nat) (s : DslState),
      processRule i (some e) env s = processRule i none env s := by
    intro i s
    rcases hA : env.tryGetActuator ("relay_" ++ toString i) with _ | idx
    · simp only [processRule, hA]
      obtain ⟨h1, h2⟩ := hE s
      simp [h2, UnifiedValue.isNumeric_eq_false_of_isError _ h1]
    · simp only [processRule, hA]
      obtain ⟨h1, h2⟩ := hE (setRelay idx 2 s)
      simp [h2, UnifiedValue.isNumeric_eq_false_of_isError _ h1]
  have hFrom : ∀ (pre : List (Option Expr)) (i : Nat) (s : DslState),
      processRuleSetFrom i (pre ++ some e :: post) env s =
        processRuleSetFrom i (pre ++ none :: post) env s := by
    intro pre
    induction pre with
    | nil => intro i s; simp [processRuleSetFrom, hPR]
    | cons r rest ih => intro i s; simp [processRuleSetFrom, ih]
  exact hFrom pre 0 st

/-- Witness for C5's amended theorem at concrete inputs: replacing the
failing UNKNOWN rule of the spec §8 example by an unparseable slot changes
nothing. -/
theorem C5_witness :
    processRuleSet isolationRules exampleEnv initialState =
      processRuleSet (none :: isolationRules.tail) exampleEnv initialState := by
  have h := C5_error_isolation_amended.1 [] (isolationRules.tail) (.arr [.str "UNKNOWN"])
    exampleEnv initialState (fun s => ⟨by rfl, by rfl⟩)
  exact h

/-- C8 (amended): the actuator setter writes only the tens digit slot of its
own relay: the new stored value is trunc(v)*10 plus the old value's ones
digit, other relays are untouched, and — when the written value truncates to
a nonnegative integer and the stored value is nonnegative, as is the case
for the 0/1/2 auto-intent contract over the nonnegative RelayValue encoding
— the ones (force-override) digit is unchanged. -/
theorem C8_setRelay_writes_tens_digit :
    ∀ (i : Nat) (v : ℚ) (st : DslState),
      (setRelay i v st).relays i = truncQ v * 10 + (st.relays i).tmod 10 ∧
      (∀ j, j ≠ i → (setRelay i v st).relays j = st.relays j) ∧
      (0 ≤ truncQ v → 0 ≤ st.relays i →
        ((setRelay i v st).relays i).tmod 10 = (st.relays i).tmod 10) := by
  intro i v st
  refine ⟨by simp [setRelay], fun j hj => by simp [setRelay, hj], fun ht hx => ?_⟩
  simp only [setRelay, if_pos rfl]
  rw [Int.tmod_eq_emod hx (by norm_num)]
  have h1 : 0 ≤ (st.relays i) % 10 := Int.emod_nonneg _ (by norm_num)
  have h2 : (st.relays i) % 10 < 10 := Int.emod_lt_of_pos _ (by norm_num)
  rw [Int.tmod_eq_emod (by omega) (by norm_num)]
  omega

/-- Witness for C8's amended theorem at a concrete input: writing 1.0 into
relay 0 holding 22 stores 12, leaves relay 1 alone, and preserves the ones
digit 2. -/
theorem C8_witness :
    (setRelay 0 1 initialState).relays 0 = truncQ 1 * 10 + (initialState.relays 0).tmod 10 ∧
    (setRelay 0 1 initialState).relays 1 = initialState.relays 1 ∧
    ((setRelay 0 1 initialState).relays 0).tmod 10 = (initialState.relays 0).tmod 10 := by
  have h := C8_setRelay_writes_tens_digit 0 1 initialState
  exact ⟨h.1, h.2.1 1 (by decide), h.2.2 (by decide) (by decide)⟩

/-- C8, counterexample to the claim as stated: the ones digit is not
preserved by every setter call rule evaluation can make — a SET with the
negative value -1 on a relay storing 22 stores -8, whose C truncated
remainder by 10 is -8, not the old ones digit 2. -/
theorem C8_counterexample :
    (setRelay 0 (-1) initialState).relays 0 = -8 ∧
    ((setRelay 0 (-1) initialState).relays 0).tmod 10 ≠ (initialState.relays 0).tmod 10 := by
  exact ⟨by decide, by decide⟩

set_option maxHeartbeats 2000000 in
/-- The value computed by the evaluator depends only on the expression and
the environment, never on the mutable relay state (helper): the evaluator's
control flow branches on values and environment lookups alone, so the value
projection of `processRuleCore` coincides with `evalValue`. -/
theorem processRuleCore_fst_eq_evalValue (e : Expr) (env : RuleCoreEnv) (st : DslState) :
    (processRuleCore e env st).1 = evalValue e env := by
  induction e, env, st using processRuleCore.induct <;>
    (try simp_all [processRuleCore, evalValue, validateBinaryNumeric]) <;>
    (try (split_ifs <;> (try simp_all) <;> (try linarith))) <;>
    (try (split <;> simp_all))

/-- C9: evaluation is deterministic in the environment: with the same
environment (hence callbacks answering identically), the resulting Value —
tag and payload — is the same from any two starting relay states; in
particular evaluating the same expression a second time, starting from the
mutated state the first evaluation left behind, yields an identical
Value. -/
theorem C9_deterministic_evaluation :
    ∀ (e : Expr) (env : RuleCoreEnv) (s1 s2 : DslState),
      (processRuleCore e env s1).1 = (processRuleCore e env s2).1 ∧
      (processRuleCore e env (processRuleCore e env s1).2).1 = (processRuleCore e env s1).1 := by
  intro e env s1 s2
  constructor <;> simp [processRuleCore_fst_eq_evalValue]

/-- C10: the UnifiedValue equality relation: error values are never equal to
anything (two errors with the same code included); two strings compare their
text; every other error-free pair compares the asFloat coercions, so the
non-numeric string abc equals the number 0; and the inequality operator is
always the negation of the equality operator. -/
theorem C10_unified_value_equality :
    (∀ (c : ErrorCode) (b : UnifiedValue),
      UnifiedValue.opEq (.error c) b = false ∧ UnifiedValue.opEq b (.error c) = false) ∧
    (∀ c : ErrorCode, UnifiedValue.opEq (.error c) (.error c) = false) ∧
    (∀ s t : String, UnifiedValue.opEq (.str s) (.str t) = decide (s = t)) ∧
    (∀ a b : UnifiedValue, a.isError = false → b.isError = false →
      (∀ s t : String, ¬ (a = .str s ∧ b = .str t)) →
      a.opEq b = decide (a.asFloat = b.asFloat)) ∧
    UnifiedValue.opEq (.str "abc") (.float 0) = true ∧
    (∀ a b : UnifiedValue, a.opNe b = !(a.opEq b)) := by
  refine ⟨?_, ?_, ?_, ?_, by decide, ?_⟩
  · intro c b
    cases b <;> simp [UnifiedValue.opEq, UnifiedValue.isError]
  · intro c; simp [UnifiedValue.opEq, UnifiedValue.isError]
  · intro s t; simp [UnifiedValue.opEq, UnifiedValue.isError]
  · intro a b ha hb hns
    cases a <;> cases b <;>
      simp_all [UnifiedValue.opEq, UnifiedValue.isError, UnifiedValue.asFloat]
  · intro a b; simp [UnifiedValue.opNe]

/-- Witness for C10's hypothesis-bearing conjunct: the mixed pair String
abc versus Float 0 is error-free and not two strings, and compares equal
through the asFloat coercion. -/
theorem C10_witness :
    UnifiedValue.opEq (.str "abc") (.float 0) =
      decide (UnifiedValue.asFloat (.str "abc") = UnifiedValue.asFloat (.float 0)) := by
  exact C10_unified_value_equality.2.2.2.1 (.str "abc") (.float 0) (by decide) (by decide)
    (fun s t h => by exact absurd h.2 (by simp))

/-- C7: string-to-number coercion is strict and two-stage.  asFloat of a
string returns the parsed value only when the strtof parse consumes the
entire string (partial parses and failed parses give 0); asInt of a string
returns the full-string in-range base-10 integer parse when there is one,
and otherwise truncates exactly what asFloat yields toward zero — matching
asInt of the equal Float value.  The spec §8 instances: 123.45abc coerces
to 0, 123.45 to 123.45, and 25.7 to the integer 25, equal to
Float(25.7).asInt(). -/
theorem C7_strict_two_stage_coercion :
    (∀ (s : String) (v : ℚ) (rest : List Char),
      strtofModel s.data = some (v, rest) → rest ≠ [] →
      UnifiedValue.asFloat (.str s) = 0) ∧
    (∀ s : String, strtofModel s.data = none → UnifiedValue.asFloat (.str s) = 0) ∧
    (∀ (s : String) (v : ℚ), strtofModel s.data = some (v, []) →
      UnifiedValue.asFloat (.str s) = v) ∧
    (∀ (s : String) (n : Int), strtolModel s.data = some (n, ([] : List Char)) →
      n ≤ 2147483647 → -2147483648 ≤ n → UnifiedValue.asInt (.str s) = n) ∧
    (∀ s : String,
      (¬ ∃ n : Int, strtolModel s.data = some (n, ([] : List Char)) ∧
        n ≤ 2147483647 ∧ -2147483648 ≤ n) →
      UnifiedValue.asInt (.str s) = truncQ (UnifiedValue.asFloat (.str s))) ∧
    UnifiedValue.asFloat (.str "123.45abc") = 0 ∧
    UnifiedValue.asFloat (.str "123.45") = 123.45 ∧
    UnifiedValue.asInt (.str "25.7") = 25 ∧
    UnifiedValue.asInt (.float (25.7 : ℚ)) = 25 ∧
    UnifiedValue.asInt (.str "25.7") = UnifiedValue.asInt (.float (25.7 : ℚ)) := by
  have h257 : (25.7 : ℚ) = mkRat 257 10 := by
    rw [Rat.mkRat_eq_divInt, Rat.divInt_eq_div]; norm_num
  have h12345 : (123.45 : ℚ) = mkRat 12345 100 := by
    rw [Rat.mkRat_eq_divInt, Rat.divInt_eq_div]; norm_num
  refine ⟨?_, ?_, ?_, ?_, ?_, by decide, ?_, by decide, ?_, ?_⟩
  · intro s v rest h hne
    simp [UnifiedValue.asFloat, parseStringAsFloat, h, hne]
  · intro s h
    simp [UnifiedValue.asFloat, parseStringAsFloat, h]
  · intro s v h
    simp [UnifiedValue.asFloat, parseStringAsFloat, h]
  · intro s n h hle hge
    simp [UnifiedValue.asInt, parseStringAsInt, h, hle, hge]
  · intro s hno
    simp only [UnifiedValue.asInt, UnifiedValue.asFloat, parseStringAsInt]
    rcases h : strtolModel s.data with _ | ⟨n, rest⟩
    · by_cases hz : parseStringAsFloat s ≠ 0 ∨ isValidZeroFloat s = true
      · simp [hz]
      · push_neg at hz
        simp [hz.1, hz.2]
        decide
    · have hcond : ¬ (rest = [] ∧ n ≤ 2147483647 ∧ -2147483648 ≤ n) := by
        intro hc
        exact hno ⟨n, by rw [h, hc.1], hc.2.1, hc.2.2⟩
      by_cases hz : parseStringAsFloat s ≠ 0 ∨ isValidZeroFloat s = true
      · simp [hcond, hz]
      · push_neg at hz
        simp [hcond, hz.1, hz.2]
        decide
  · rw [show UnifiedValue.asFloat (.str "123.45") = mkRat 12345 100 from by decide, h12345]
  · rw [show UnifiedValue.asInt (.float (25.7 : ℚ)) =
        UnifiedValue.asInt (.float (mkRat 257 10)) from by rw [h257]]
    decide
  · rw [show UnifiedValue.asInt (.float (25.7 : ℚ)) =
        UnifiedValue.asInt (.float (mkRat 257 10)) from by rw [h257]]
    decide

/-- Witness for C1 at concrete inputs: with a false first operand (the
literal 0) the AND of the example environment short-circuits to Float 0
even though its second operand is an unknown function. -/
theorem C1_witness :
    processRuleCore (.arr [.str "AND", .intLit 0, .arr [.str "UNKNOWN_FN"]])
      exampleEnv initialState = (.float 0, initialState) := by
  exact (C1_and_or_short_circuit.1 exampleEnv initialState (.intLit 0)
    (.arr [.str "UNKNOWN_FN"]) (.int 0) initialState rfl).2.1 (by decide) (by decide)

/-- Witness for C2 at concrete inputs: with the true condition literal 1,
IF evaluates only its then-branch NOP, for an else-branch that would error
if evaluated. -/
theorem C2_witness :
    processRuleCore (.arr [.str "IF", .intLit 1, .arr [.str "NOP"], .arr [.str "UNKNOWN_FN"]])
      exampleEnv initialState =
      processRuleCore (.arr [.str "NOP"]) exampleEnv initialState := by
  exact ((C2_if_single_branch.1 exampleEnv initialState (.intLit 1) (.arr [.str "NOP"])
    (.arr [.str "UNKNOWN_FN"]) (.int 1) initialState rfl).2.2.1 (by decide) (by decide))

/-- Witness for C6 at concrete inputs: the String-valued operand online
makes GT a comparison type error, while EQ on two online strings yields
Float 1. -/
theorem C6_witness :
    processRuleCore (.arr [.str "GT", .str "online", .intLit 5]) exampleEnv initialState =
      (.error .COMPARISON_TYPE_ERROR, initialState) ∧
    processRuleCore (.arr [.str "EQ", .str "online", .str "online"]) exampleEnv initialState =
      (.float (if "online" = "online" then 1 else 0), initialState) := by
  have h := C6_ordering_requires_numeric_eq_accepts_strings.1 exampleEnv initialState
    (.str "online") (.intLit 5) (.str "online") (.int 5) initialState initialState rfl rfl
  have h2 := C6_ordering_requires_numeric_eq_accepts_strings.1 exampleEnv initialState
    (.str "online") (.str "online") (.str "online") (.str "online") initialState initialState
    rfl rfl
  exact ⟨(h.1 (by decide) (by decide) (Or.inl (by decide))).1, h2.2 "online" "online" rfl rfl⟩

/-- Witness for C7 at concrete inputs: the partial parse of 123.45abc is
rejected to 0, and asInt of 25.7 falls back to truncating its asFloat. -/
theorem C7_witness :
    UnifiedValue.asFloat (.str "123.45abc") = 0 ∧
    UnifiedValue.asInt (.str "25.7") = truncQ (UnifiedValue.asFloat (.str "25.7")) := by
  constructor
  · exact C7_strict_two_stage_coercion.1 "123.45abc" (Rat.divInt 2469 20) ['a', 'b', 'c']
      (by decide) (by decide)
  · refine C7_strict_two_stage_coercion.2.2.2.2.1 "25.7" ?_
    rintro ⟨n, hn, -, -⟩
    rw [show strtolModel "25.7".data = some (25, ['.', '7']) from by decide] at hn
    simp at hn

/-- The nine-character case of the time-literal refinement (helper): on a
nine-character string the parser fails exactly on a format violation and
otherwise returns the seconds-since-midnight value. -/
theorem parseTimeLiteral_nine_spec (c0 c1 c2 c3 c4 c5 c6 c7 c8 : Char) :
    (parseTimeLiteral ⟨[c0, c1, c2, c3, c4, c5, c6, c7, c8]⟩ ≠ -1 ↔
      timeLiteralWFSpec ⟨[c0, c1, c2, c3, c4, c5, c6, c7, c8]⟩) ∧
    (timeLiteralWFSpec ⟨[c0, c1, c2, c3, c4, c5, c6, c7, c8]⟩ →
      parseTimeLiteral ⟨[c0, c1, c2, c3, c4, c5, c6, c7, c8]⟩ =
        timeLiteralValSpec ⟨[c0, c1, c2, c3, c4, c5, c6, c7, c8]⟩) := by
  have hval : timeLiteralValSpec ⟨[c0, c1, c2, c3, c4, c5, c6, c7, c8]⟩ =
      (((10 * digitVal c1 + digitVal c2) * 3600 + (10 * digitVal c4 + digitVal c5) * 60 +
        (10 * digitVal c7 + digitVal c8) : Nat) : Int) := by
    simp [timeLiteralValSpec, List.getD]
  have hWFiff : timeLiteralWFSpec ⟨[c0, c1, c2, c3, c4, c5, c6, c7, c8]⟩ ↔
      (c0 = '@' ∧ c3 = ':' ∧ c6 = ':' ∧
       isDigitChar c1 = true ∧ isDigitChar c2 = true ∧ isDigitChar c4 = true ∧
       isDigitChar c5 = true ∧ isDigitChar c7 = true ∧ isDigitChar c8 = true ∧
       10 * digitVal c1 + digitVal c2 ≤ 23 ∧ 10 * digitVal c4 + digitVal c5 ≤ 59 ∧
       10 * digitVal c7 + digitVal c8 ≤ 59) := by
    simp [timeLiteralWFSpec, String.length, List.getD]
  constructor
  · rw [hWFiff]
    constructor
    · intro h
      simp only [parseTimeLiteral] at h
      split_ifs at h with h1 h2 h3
      · exact absurd rfl h
      · exact absurd rfl h
      · push_neg at h1 h3
        have hd : isDigitChar c1 = true ∧ isDigitChar c2 = true ∧ isDigitChar c4 = true ∧
            isDigitChar c5 = true ∧ isDigitChar c7 = true ∧ isDigitChar c8 = true := by
          tauto
        exact ⟨h1.1, h1.2.1, h1.2.2, hd.1, hd.2.1, hd.2.2.1, hd.2.2.2.1, hd.2.2.2.2.1,
          hd.2.2.2.2.2, by omega, by omega, by omega⟩
      · exact absurd rfl h
    · intro hWF
      obtain ⟨e0, e3, e6, d1, d2, d4, d5, d7, d8, r1, r2, r3⟩ := hWF
      simp only [parseTimeLiteral]
      split_ifs with h1 h2 h3
      · tauto
      · omega
      · omega
      · tauto
  · intro hWF
    rw [hWFiff] at hWF
    obtain ⟨e0, e3, e6, d1, d2, d4, d5, d7, d8, r1, r2, r3⟩ := hWF
    rw [hval]
    simp only [parseTimeLiteral]
    split_ifs with h1 h2 h3
    · tauto
    · omega
    · rfl
    · tauto

/-- Wrong-length strings fail the parser and the specification (helper):
any character list that is not exactly nine long parses to the sentinel and
violates the well-formedness predicate. -/
theorem parseTimeLiteral_wrong_length (cs : List Char) (h : cs.length ≠ 9) :
    parseTimeLiteral ⟨cs⟩ = -1 ∧ ¬ timeLiteralWFSpec ⟨cs⟩ := by
  constructor
  · rcases cs with _ | ⟨c0, _ | ⟨c1, _ | ⟨c2, _ | ⟨c3, _ | ⟨c4, _ | ⟨c5, _ | ⟨c6, _ |
      ⟨c7, _ | ⟨c8, _ | ⟨c9, cs⟩⟩⟩⟩⟩⟩⟩⟩⟩⟩ <;>
      first
        | rfl
        | (simp [List.length] at h)
  · intro hWF
    exact h (by simpa [timeLiteralWFSpec, String.length] using hWF.1)

/-- C4: the time-literal parser succeeds exactly on well-formed
@HH:MM:SS strings (nine characters, the at sign at position 0, colons at
positions 3 and 6, six ASCII digit positions, hour at most 23, minute and
second at most 59), in which case it returns hours*3600 + minutes*60 +
seconds; on any violation it returns the sentinel -1, which the evaluator's
literal dispatch turns into Error TIME_ERROR.  The spec §8 instances:
14:30:00 parses to 52200, 23:59:59 to 86399, while 25:00:00 (hour out of
range) and 14:30 (wrong length) fail. -/
theorem C4_parseTimeLiteral_contract :
    (∀ s : String, parseTimeLiteral s ≠ -1 ↔ timeLiteralWFSpec s) ∧
    (∀ s : String, timeLiteralWFSpec s → parseTimeLiteral s = timeLiteralValSpec s) ∧
    (∀ (s : String) (env : RuleCoreEnv) (st : DslState),
      jsonIsTimeLiteral s = true → parseTimeLiteral s = -1 →
      processRuleCore (.str s) env st = (.error .TIME_ERROR, st)) ∧
    parseTimeLiteral "@14:30:00" = 52200 ∧
    parseTimeLiteral "@23:59:59" = 86399 ∧
    parseTimeLiteral "@25:00:00" = -1 ∧
    parseTimeLiteral "@14:30" = -1 := by
  have main : ∀ s : String, (parseTimeLiteral s ≠ -1 ↔ timeLiteralWFSpec s) ∧
      (timeLiteralWFSpec s → parseTimeLiteral s = timeLiteralValSpec s) := by
    intro s
    obtain ⟨cs⟩ := s
    by_cases h9 : cs.length = 9
    · rcases cs with _ | ⟨c0, _ | ⟨c1, _ | ⟨c2, _ | ⟨c3, _ | ⟨c4, _ | ⟨c5, _ | ⟨c6, _ |
        ⟨c7, _ | ⟨c8, _ | ⟨c9, cs⟩⟩⟩⟩⟩⟩⟩⟩⟩⟩ <;> simp_all [List.length]
      exact parseTimeLiteral_nine_spec c0 c1 c2 c3 c4 c5 c6 c7 c8
    · obtain ⟨hp, hw⟩ := parseTimeLiteral_wrong_length cs h9
      refine ⟨⟨fun h => absurd hp h, fun h => absurd h hw⟩, fun h => absurd h hw⟩
  refine ⟨fun s => (main s).1, fun s => (main s).2, ?_, by decide, by decide, by decide,
    by decide⟩
  intro s env st hTime hFail
  rw [processRuleCore_str_eq, hTime, if_pos rfl, if_pos (by rw [hFail]; decide)]

/-- Witness for C4 at concrete inputs: 14:30:00 is well-formed and parses
to its seconds value, and the out-of-range 25:00:00 literal evaluates to
Error TIME_ERROR. -/
theorem C4_witness :
    parseTimeLiteral "@14:30:00" = timeLiteralValSpec "@14:30:00" ∧
    processRuleCore (.str "@25:00:00") exampleEnv initialState =
      (.error .TIME_ERROR, initialState) := by
  exact ⟨C4_parseTimeLiteral_contract.2.1 "@14:30:00" (by unfold timeLiteralWFSpec; decide),
    C4_parseTimeLiteral_contract.2.2.1 "@25:00:00" exampleEnv initialState (by decide) (by decide)⟩
